import Mathlib

/-!
Shallow embedding of the cyberex backend's authentication and authorization
core: the login state machine (`src/routes/auth.js`), the user / role /
role-assignment model methods (`src/models/UserRole.js`), the JWT
authorization middleware and RBAC policy (`src/services/TaskServices.js`,
middleware part), the simple middleware variant (`src/unnamed/part_004`)
and the role-assignment service (`src/unnamed/part_001`).

External collaborators are abstracted as parameters: bcrypt comparison is a
`String → String → Bool` argument, JWT signature/expiry verification is a
`String → JwtOutcome` argument, and request validation (express-validator)
is a `Bool` argument.  Timestamps are naturals (milliseconds since epoch,
the value of `Date.now()`).  The database is an explicit record of lists.
-/

/-- A user row (`User` model in `src/models/UserRole.js`, second module). -/
structure User where
  id : String
  email : String
  password : String
  name : String
  exercise_id : Option String
  isActive : Bool
  failedLoginAttempts : Nat
  lockedUntil : Option Nat
  lastLoginAt : Option Nat
deriving Repr, DecidableEq

/-- A role row (`Role` model). -/
structure Role where
  id : String
  name : String
  isActive : Bool
deriving Repr, DecidableEq

/-- A role-assignment row (`UserRole` model, composite key (user_id, role_id)). -/
structure UserRoleRec where
  user_id : String
  role_id : String
  assigned_at : Nat
  assignedBy : Option String
  isActive : Bool
  expiresAt : Option Nat
  notes : Option String
deriving Repr, DecidableEq

/-- The relational store: the three tables the auth core touches. -/
structure Db where
  users : List User
  roles : List Role
  userRoles : List UserRoleRec
deriving Repr, DecidableEq

/-- `User.prototype.isLocked`: `this.lockedUntil && this.lockedUntil > new Date()`. -/
def User.isLocked (u : User) (now : Nat) : Bool :=
  match u.lockedUntil with
  | some t => decide (now < t)
  | none => false

/-- `User.prototype.incrementFailedAttempts`: add 1 to the counter and, when the
post-increment counter is ≥ maxAttempts (5), set lockedUntil to now + 30 minutes. -/
def User.incrementFailedAttempts (u : User) (now : Nat) : User :=
  let maxAttempts := 5
  let lockTime := 30 * 60 * 1000
  let u1 := { u with failedLoginAttempts := u.failedLoginAttempts + 1 }
  if maxAttempts ≤ u1.failedLoginAttempts then
    { u1 with lockedUntil := some (now + lockTime) }
  else
    u1

/-- `User.prototype.resetFailedAttempts`: zero the counter, clear the lock,
stamp the last login. -/
def User.resetFailedAttempts (u : User) (now : Nat) : User :=
  { u with failedLoginAttempts := 0, lockedUntil := none, lastLoginAt := some now }

/-- Drop leading whitespace characters (helper for modelling
`String.prototype.trim`). -/
def trimLeftChars (l : List Char) : List Char :=
  match l with
  | [] => []
  | c :: cs => if c.isWhitespace then trimLeftChars cs else c :: cs

/-- `email.toLowerCase().trim()` as applied by `User.findByEmail` and
`User.createUser`: lower-case every character, then drop whitespace from
both ends. -/
def normalizeEmail (e : String) : String :=
  let low := e.data.map Char.toLower
  ⟨(trimLeftChars (trimLeftChars low).reverse).reverse⟩

/-- `User.findByEmail`: look up by lower-cased, trimmed email. -/
def User.findByEmail (db : Db) (email : String) : Option User :=
  db.users.find? (fun u => u.email == normalizeEmail email)

/-- `user.save()` after mutating a fetched row: persist the row under its id. -/
def saveUser (db : Db) (u : User) : Db :=
  { db with users := db.users.map (fun v => if v.id == u.id then u else v) }

/-- Role names loaded on the login success path
(`User.findByPk(user.id, include Role as roles, where role.isActive, through {attributes:[]})`
in `src/routes/auth.js`): the join filters only on `Role.isActive`. -/
def loginRoleNames (db : Db) (userId : String) : List String :=
  (db.userRoles.filter (fun ur => ur.user_id == userId)).filterMap
    (fun ur => (db.roles.find? (fun r => r.id == ur.role_id && r.isActive)).map
      (fun r => r.name))

/-- An error response body of the login route: HTTP status plus the JSON
fields `{success, error, message, lockedUntil?}`. -/
structure LoginError where
  status : Nat
  success : Bool
  error : String
  message : String
  lockedUntil : Option Nat := none
deriving Repr, DecidableEq

/-- 400 body for malformed input. -/
def validationErrorBody : LoginError :=
  { status := 400, success := false, error := "Validation Error",
    message := "Invalid input data" }

/-- 401 body for unknown email and for wrong password (same literal in both
branches of the handler). -/
def invalidCredentials : LoginError :=
  { status := 401, success := false, error := "Authentication Failed",
    message := "Invalid email or password" }

/-- 423 body for a locked account, carrying the stored lockedUntil. -/
def accountLocked (lockedUntil : Option Nat) : LoginError :=
  { status := 423, success := false, error := "Account Locked",
    message := "Account is temporarily locked due to multiple failed login attempts",
    lockedUntil := lockedUntil }

/-- 401 body for an inactive account. -/
def inactiveAccount : LoginError :=
  { status := 401, success := false, error := "Authentication Failed",
    message := "Account is inactive" }

/-- 500 body when JWT_SECRET is missing on the success path. -/
def loginConfigError : LoginError :=
  { status := 500, success := false, error := "Internal Server Error",
    message := "Authentication service not properly configured" }

/-- Outcome of `POST /api/auth/login`: an error body, or success carrying the
saved user row and the role names embedded in the issued token. -/
inductive LoginResult where
  | err (e : LoginError)
  | ok (user : User) (roles : List String)
deriving Repr, DecidableEq

/-- The login handler of `src/routes/auth.js`, returning the HTTP outcome and
the updated store.  `inputValid` is the express-validator verdict, `compare`
is `bcrypt.compare` (plaintext against the stored hash), `jwtConfigured` is
whether `process.env.JWT_SECRET` is set. -/
def login (db : Db) (inputValid : Bool) (email password : String)
    (compare : String → String → Bool) (jwtConfigured : Bool) (now : Nat) :
    LoginResult × Db :=
  if !inputValid then (.err validationErrorBody, db)
  else
    match User.findByEmail db email with
    | none => (.err invalidCredentials, db)
    | some u =>
      if u.isLocked now then (.err (accountLocked u.lockedUntil), db)
      else if !u.isActive then (.err inactiveAccount, db)
      else if !(compare password u.password) then
        let u2 := u.incrementFailedAttempts now
        (.err invalidCredentials, saveUser db u2)
      else
        let u2 := u.resetFailedAttempts now
        let db2 := saveUser db u2
        if !jwtConfigured then (.err loginConfigError, db2)
        else (.ok u2 (loginRoleNames db2 u.id), db2)

/-!
Authorization middleware (`middleware/auth.js`, embedded from the enhanced
variant in `src/services/TaskServices.js` and the simple variant in
`src/unnamed/part_004`).
-/

/-- Result of `jwt.verify(token, secret)`: decoded payload (its `userId`
claim is what the middleware uses), or one of the two error classes
`JsonWebTokenError` / `TokenExpiredError`. -/
inductive JwtOutcome where
  | ok (userId : String)
  | invalid
  | expired
deriving Repr, DecidableEq

/-- An error response of the middleware: HTTP status plus the JSON fields
`{error, message, code, lockedUntil?}`. -/
structure Rejection where
  status : Nat
  error : String
  message : String
  code : String
  lockedUntil : Option Nat := none
deriving Repr, DecidableEq

/-- 401 body when the Authorization header carries no token. -/
def tokenMissingRejection : Rejection :=
  { status := 401, error := "Unauthorized", message := "Access token is missing",
    code := "UNAUTHORIZED" }

/-- 500 body when JWT_SECRET is not configured. -/
def configErrorRejection : Rejection :=
  { status := 500, error := "Internal Server Error",
    message := "JWT configuration not set up", code := "CONFIG_ERROR" }

/-- 403 body for a `JsonWebTokenError` (bad signature / malformed token) in
the enhanced middleware. -/
def invalidTokenRejection : Rejection :=
  { status := 403, error := "Forbidden", message := "Invalid token",
    code := "INVALID_TOKEN" }

/-- 403 body for a `TokenExpiredError` in the enhanced middleware. -/
def expiredTokenRejection : Rejection :=
  { status := 403, error := "Forbidden", message := "Token has expired",
    code := "TOKEN_EXPIRED" }

/-- 403 body when the token's principal is missing or inactive. -/
def inactiveUserRejection : Rejection :=
  { status := 403, error := "Forbidden",
    message := "User account is inactive or not found", code := "INACTIVE_USER" }

/-- 423 body when the token's principal is currently locked. -/
def lockedUserRejection (lockedUntil : Option Nat) : Rejection :=
  { status := 423, error := "Account Locked",
    message := "User account is temporarily locked", code := "ACCOUNT_LOCKED",
    lockedUntil := lockedUntil }

/-- 403 body of the simple middleware variant for any verification error
(it does not distinguish expired from invalid). -/
def simpleForbiddenRejection : Rejection :=
  { status := 403, error := "Forbidden", message := "Invalid or expired token",
    code := "FORBIDDEN" }

/-- The authenticated principal the enhanced middleware attaches as `req.user`. -/
structure Principal where
  userId : String
  email : String
  name : String
  roles : List String
  isActive : Bool
  exercise_id : Option String
deriving Repr, DecidableEq

/-- Outcome of the enhanced middleware: a terminal rejection, or `next()`
with `req.user` attached. -/
inductive MwResult where
  | reject (r : Rejection)
  | allow (p : Principal)
deriving Repr, DecidableEq

/-- Role names loaded by the enhanced middleware
(`User.findByPk(decoded.userId, include Role as roles, where role.isActive,
through {attributes:[], where: {isActive: true}})`): the join filters on the
assignment's `isActive` and the role's `isActive` — and on nothing else
(in particular not on `expiresAt`). -/
def loadedRoleNames (db : Db) (userId : String) : List String :=
  (db.userRoles.filter (fun ur => ur.user_id == userId && ur.isActive)).filterMap
    (fun ur => (db.roles.find? (fun r => r.id == ur.role_id && r.isActive)).map
      (fun r => r.name))

/-- The enhanced `verifyJwtToken` middleware (`src/services/TaskServices.js`
lines 155-299): extract bearer token, verify, re-fetch the principal and its
current roles, check active flag and lock, then attach `req.user`. -/
def verifyJwtToken (authToken : Option String) (secretConfigured : Bool)
    (verify : String → JwtOutcome) (db : Db) (now : Nat) : MwResult :=
  match authToken with
  | none => .reject tokenMissingRejection
  | some token =>
    if !secretConfigured then .reject configErrorRejection
    else
      match verify token with
      | .invalid => .reject invalidTokenRejection
      | .expired => .reject expiredTokenRejection
      | .ok userId =>
        match db.users.find? (fun u => u.id == userId) with
        | none => .reject inactiveUserRejection
        | some user =>
          if !user.isActive then .reject inactiveUserRejection
          else if user.isLocked now then .reject (lockedUserRejection user.lockedUntil)
          else .allow
            { userId := user.id, email := user.email, name := user.name,
              roles := loadedRoleNames db user.id, isActive := user.isActive,
              exercise_id := user.exercise_id }

/-- Outcome of the simple middleware variant: rejection, or `next()` with the
decoded payload attached. -/
inductive SimpleMwResult where
  | reject (r : Rejection)
  | allow (decodedUserId : String)
deriving Repr, DecidableEq

/-- The simple `verifyJwtToken` variant (`src/unnamed/part_004` lines 7-40):
verifies signature and expiry only, returns one undifferentiated 403 for any
verification error and never consults the user store. -/
def verifyJwtTokenSimple (authToken : Option String) (secretConfigured : Bool)
    (verify : String → JwtOutcome) : SimpleMwResult :=
  match authToken with
  | none => .reject tokenMissingRejection
  | some token =>
    if !secretConfigured then .reject configErrorRejection
    else
      match verify token with
      | .ok userId => .allow userId
      | .invalid => .reject simpleForbiddenRejection
      | .expired => .reject simpleForbiddenRejection

/-!
RBAC policy middleware (`requireRole`, `requireAdmin`,
`preventSelfPrivilegeEscalation` in the enhanced `middleware/auth.js`).
-/

/-- Outcome of `requireRole`: 401 without authentication, 403 reporting the
required and current role lists, or `next()`. -/
inductive RoleCheckResult where
  | noAuth (status : Nat) (code : String)
  | forbidden (status : Nat) (code : String) (required current : List String)
  | allowed
deriving Repr, DecidableEq

/-- `requireRole(requiredRoles)`: allow iff some required role is among the
principal's role names. -/
def requireRole (requiredRoles : List String) (user : Option Principal) :
    RoleCheckResult :=
  match user with
  | none => .noAuth 401 "NO_AUTH"
  | some p =>
    let userRoles := p.roles
    if requiredRoles.any (fun role => userRoles.contains role) then .allowed
    else .forbidden 403 "INSUFFICIENT_PERMISSIONS" requiredRoles userRoles

/-- `requireAdmin = requireRole(["admin", "super_admin"])`. -/
def requireAdmin : Option Principal → RoleCheckResult :=
  requireRole ["admin", "super_admin"]

/-- Outcome of `preventSelfPrivilegeEscalation`: 401 without authentication,
403 listing the restricted and attempted fields, or `next()`. -/
inductive EscalationResult where
  | noAuth (status : Nat)
  | forbidden (status : Nat) (code : String) (restricted attempted : List String)
  | allowed
deriving Repr, DecidableEq

/-- The fixed list of fields a non-admin may not modify on their own account. -/
def restrictedFields : List String :=
  ["isActive", "exercise_id", "failedLoginAttempts", "lockedUntil"]

/-- `preventSelfPrivilegeEscalation` (`src/services/TaskServices.js` lines
497-542).  `bodyFields` is the set of own-properties of `req.body`;
`targetUserId` is `req.params.id`. -/
def preventSelfPrivilegeEscalation (user : Option Principal)
    (targetUserId : String) (bodyFields : List String) : EscalationResult :=
  match user with
  | none => .noAuth 401
  | some p =>
    let userRoles := p.roles
    let isAdmin := userRoles.contains "admin" || userRoles.contains "super_admin"
    if p.userId == targetUserId && !isAdmin then
      if restrictedFields.any (fun f => bodyFields.contains f) then
        .forbidden 403 "RESTRICTED_SELF_MODIFICATION" restrictedFields
          (restrictedFields.filter (fun f => bodyFields.contains f))
      else .allowed
    else .allowed

/-!
Role assignment: the model-level static `UserRole.assignRole`
(`src/models/UserRole.js` lines 57-108) and the service-level
`UserRoleService.assignRole` (`src/unnamed/part_001` lines 3-24) that the
HTTP routes (`POST /api/users/:id/roles`, `POST /api/roles/:id/users`)
actually call.  Error messages are the underlying business messages; the
surrounding catch blocks re-wrap them with a localized prefix, which is not
modelled.
-/

/-- Outcome of a role assignment: a raised error, a reactivated existing row,
or a freshly created row. -/
inductive AssignResult where
  | failure (msg : String)
  | reactivated (assignment : UserRoleRec)
  | created (assignment : UserRoleRec)
deriving Repr, DecidableEq

/-- The model-level `UserRole.assignRole`: checks user and role exist and are
active; if an assignment row for the pair exists and is active, fail; if it
exists and is inactive, reactivate it in place with a fresh `assigned_at`;
otherwise create a new row. -/
def UserRole.assignRole (db : Db) (userId roleId : String)
    (assignedBy : Option String) (expiresAt : Option Nat) (notes : Option String)
    (now : Nat) : AssignResult × Db :=
  match db.users.find? (fun u => u.id == userId && u.isActive) with
  | none => (.failure "User not found or inactive", db)
  | some _ =>
    match db.roles.find? (fun r => r.id == roleId && r.isActive) with
    | none => (.failure "Role not found or inactive", db)
    | some _ =>
      match db.userRoles.find? (fun ur => ur.user_id == userId && ur.role_id == roleId) with
      | some existing =>
        if existing.isActive then (.failure "User already has this role", db)
        else
          let updated := { existing with
            isActive := true, assigned_at := now, assignedBy := assignedBy,
            expiresAt := expiresAt, notes := notes }
          (.reactivated updated,
            { db with userRoles := db.userRoles.map (fun ur =>
                if ur.user_id == userId && ur.role_id == roleId then updated else ur) })
      | none =>
        let row : UserRoleRec :=
          { user_id := userId, role_id := roleId, assigned_at := now,
            assignedBy := assignedBy, expiresAt := expiresAt, notes := notes,
            isActive := true }
        (.created row, { db with userRoles := db.userRoles ++ [row] })

/-- The service-level `UserRoleService.assignRole` used by the HTTP routes:
fails whenever any assignment row for the pair exists — active or revoked —
and otherwise creates a new row (defaults: `assigned_at = now`,
`isActive = true`, `assignedBy = null`). -/
def UserRoleService.assignRole (db : Db) (userId roleId : String)
    (expiresAt : Option Nat) (notes : Option String) (now : Nat) :
    AssignResult × Db :=
  match db.userRoles.find? (fun ur => ur.user_id == userId && ur.role_id == roleId) with
  | some _ => (.failure "Ce rôle est déjà assigné à cet utilisateur", db)
  | none =>
    let row : UserRoleRec :=
      { user_id := userId, role_id := roleId, assigned_at := now,
        assignedBy := none, expiresAt := expiresAt, notes := notes,
        isActive := true }
    (.created row, { db with userRoles := db.userRoles ++ [row] })

/-!
Concrete fixtures used by the closed counterexamples and witnesses below.
-/

/-- A bcrypt-comparison oracle for concrete runs: the plaintext matches
exactly its stored digest. -/
def exCmp : String → String → Bool := fun plain digest => plain == digest

/-- A user-row builder for concrete runs. -/
def mkUser (id email pw : String) (active : Bool) (fails : Nat)
    (lockedUntil : Option Nat) : User :=
  { id := id, email := email, password := pw, name := "Name",
    exercise_id := none, isActive := active, failedLoginAttempts := fails,
    lockedUntil := lockedUntil, lastLoginAt := none }

/-- An active, unlocked account with 4 accumulated failed attempts. -/
def exAlice : User := mkUser "u1" "alice@x.com" "hashA" true 4 none

/-- A store holding only `exAlice`. -/
def exDb1 : Db := { users := [exAlice], roles := [], userRoles := [] }

/-- An account locked until timestamp 5000. -/
def exBob : User := mkUser "u2" "bob@x.com" "hashB" true 2 (some 5000)

/-- A store holding only `exBob`. -/
def exDb2 : Db := { users := [exBob], roles := [], userRoles := [] }

/-- An account whose lock (until 500) has expired, with the counter still at 5. -/
def exEve : User := mkUser "u4" "eve@x.com" "hashE" true 5 (some 500)

/-- A store holding only `exEve`. -/
def exDb10 : Db := { users := [exEve], roles := [], userRoles := [] }

/-- An inactive account whose stored digest matches the password "hashC". -/
def exCarol : User := mkUser "u3" "carol@x.com" "hashC" false 0 none

/-- A store holding only `exCarol`. -/
def exDb9 : Db := { users := [exCarol], roles := [], userRoles := [] }

/-- An active, unlocked account for the RBAC fixtures. -/
def exAdminUser : User := mkUser "u1" "admin@x.com" "hashD" true 0 none

/-- The active "admin" role row. -/
def exAdminRole : Role := { id := "r1", name := "admin", isActive := true }

/-- An admin assignment that is still flagged active but expired at 50. -/
def exExpiredAssignment : UserRoleRec :=
  { user_id := "u1", role_id := "r1", assigned_at := 0, assignedBy := none,
    isActive := true, expiresAt := some 50, notes := none }

/-- A store where the only admin assignment of `exAdminUser` is expired. -/
def exAdminDb : Db :=
  { users := [exAdminUser], roles := [exAdminRole], userRoles := [exExpiredAssignment] }

/-- The principal the enhanced middleware attaches for `exAdminDb`. -/
def exAdminPrincipal : Principal :=
  { userId := "u1", email := "admin@x.com", name := "Name", roles := ["admin"],
    isActive := true, exercise_id := none }

/-- A revoked (inactive) admin assignment row. -/
def exRevokedAssignment : UserRoleRec :=
  { user_id := "u1", role_id := "r1", assigned_at := 10, assignedBy := none,
    isActive := false, expiresAt := none, notes := none }

/-- A store where the (u1, r1) assignment exists but is revoked. -/
def exRevokedDb : Db :=
  { users := [exAdminUser], roles := [exAdminRole], userRoles := [exRevokedAssignment] }

/-- The row `UserRole.assignRole` writes when it reactivates `rec0`. -/
def reactivatedRow (rec0 : UserRoleRec) (assignedBy : Option String)
    (expiresAt : Option Nat) (notes : Option String) (now : Nat) : UserRoleRec :=
  { rec0 with
    isActive := true, assigned_at := now, assignedBy := assignedBy,
    expiresAt := expiresAt, notes := notes }

/-- C1: a login attempt on an existing, active, unlocked account whose
password does not match is answered by the invalid-credentials 401 body, the
stored failed-login counter is incremented by exactly 1, and when the
post-increment counter reaches 5 the lock-until is set to 30 minutes
(1800000 ms) after the current time. -/
theorem login_wrong_password_increments_and_locks
    (db : Db) (email password : String) (compare : String → String → Bool)
    (jwtConfigured : Bool) (now : Nat) (u : User)
    (hfind : User.findByEmail db email = some u)
    (hnl : u.isLocked now = false)
    (hact : u.isActive = true)
    (hpw : compare password u.password = false) :
    login db true email password compare jwtConfigured now =
      (.err invalidCredentials, saveUser db (u.incrementFailedAttempts now)) ∧
    (u.incrementFailedAttempts now).failedLoginAttempts = u.failedLoginAttempts + 1 ∧
    (u.failedLoginAttempts + 1 = 5 →
      (u.incrementFailedAttempts now).lockedUntil = some (now + 30 * 60 * 1000)) ∧
    invalidCredentials.status = 401 := by
  refine ⟨?_, ?_, ?_, rfl⟩
  · simp [login, hfind, hnl, hact, hpw]
  · simp [User.incrementFailedAttempts]
    split <;> rfl
  · intro h5
    simp [User.incrementFailedAttempts, h5]

/-- C1 witness: the 5th failed attempt on `exAlice` (counter 4) rejects with
401 and locks until 1000 + 30 minutes. -/
theorem login_wrong_password_increments_and_locks_witness :
    login exDb1 true "alice@x.com" "wrongpw" exCmp true 1000 =
      (.err invalidCredentials, saveUser exDb1 (exAlice.incrementFailedAttempts 1000)) ∧
    (exAlice.incrementFailedAttempts 1000).failedLoginAttempts =
      exAlice.failedLoginAttempts + 1 ∧
    (exAlice.failedLoginAttempts + 1 = 5 →
      (exAlice.incrementFailedAttempts 1000).lockedUntil = some (1000 + 30 * 60 * 1000)) ∧
    invalidCredentials.status = 401 :=
  login_wrong_password_increments_and_locks exDb1 "alice@x.com" "wrongpw" exCmp true
    1000 exAlice (by decide) (by decide) (by decide) (by decide)

/-- C2: a login attempt on an account whose lock-until is set and in the
future is rejected with the 423 body carrying that lock-until, and the store
is returned unchanged — no counter increment and no lock extension — for
every supplied password and comparison oracle. -/
theorem login_locked_rejects_without_mutation
    (db : Db) (email password : String) (compare : String → String → Bool)
    (jwtConfigured : Bool) (now t : Nat) (u : User)
    (hfind : User.findByEmail db email = some u)
    (hlock : u.lockedUntil = some t)
    (hfut : now < t) :
    login db true email password compare jwtConfigured now =
      (.err (accountLocked (some t)), db) ∧
    (accountLocked (some t)).status = 423 ∧
    (accountLocked (some t)).lockedUntil = some t := by
  have hl : u.isLocked now = true := by simp [User.isLocked, hlock, hfut]
  refine ⟨?_, rfl, rfl⟩
  simp [login, hfind, hl, hlock]

/-- C2 witness: a login on `exBob`, locked until 5000, at time 1000, with the
correct password, is rejected 423 and the store is unchanged. -/
theorem login_locked_rejects_without_mutation_witness :
    login exDb2 true "bob@x.com" "hashB" exCmp true 1000 =
      (.err (accountLocked (some 5000)), exDb2) ∧
    (accountLocked (some 5000)).status = 423 ∧
    (accountLocked (some 5000)).lockedUntil = some 5000 :=
  login_locked_rejects_without_mutation exDb2 "bob@x.com" "hashB" exCmp true 1000 5000
    exBob (by decide) (by decide) (by decide)

/-- C3: a successful login (existing, unlocked, active account, matching
password) saves the user with the failed-login counter reset to 0, lock-until
cleared to null and last-login set to the current time. -/
theorem login_success_resets_counter
    (db : Db) (email password : String) (compare : String → String → Bool)
    (now : Nat) (u : User)
    (hfind : User.findByEmail db email = some u)
    (hnl : u.isLocked now = false)
    (hact : u.isActive = true)
    (hpw : compare password u.password = true) :
    login db true email password compare true now =
      (.ok (u.resetFailedAttempts now)
        (loginRoleNames (saveUser db (u.resetFailedAttempts now)) u.id),
       saveUser db (u.resetFailedAttempts now)) ∧
    (u.resetFailedAttempts now).failedLoginAttempts = 0 ∧
    (u.resetFailedAttempts now).lockedUntil = none ∧
    (u.resetFailedAttempts now).lastLoginAt = some now := by
  refine ⟨?_, rfl, rfl, rfl⟩
  simp [login, hfind, hnl, hact, hpw]

/-- C3 witness: a successful login on `exAlice` resets the counter from 4 to
0, clears the lock and stamps last-login 1000. -/
theorem login_success_resets_counter_witness :
    login exDb1 true "alice@x.com" "hashA" exCmp true 1000 =
      (.ok (exAlice.resetFailedAttempts 1000)
        (loginRoleNames (saveUser exDb1 (exAlice.resetFailedAttempts 1000)) exAlice.id),
       saveUser exDb1 (exAlice.resetFailedAttempts 1000)) ∧
    (exAlice.resetFailedAttempts 1000).failedLoginAttempts = 0 ∧
    (exAlice.resetFailedAttempts 1000).lockedUntil = none ∧
    (exAlice.resetFailedAttempts 1000).lastLoginAt = some 1000 :=
  login_success_resets_counter exDb1 "alice@x.com" "hashA" exCmp 1000 exAlice
    (by decide) (by decide) (by decide) (by decide)

/-- C4: for a request whose token verifies to a principal id, the enhanced
middleware allows iff that principal currently exists, is active and is not
locked; a missing or inactive principal is rejected with the 403
INACTIVE_USER body and a locked one with the 423 ACCOUNT_LOCKED body — so
the decision depends only on the current account state, not on the state at
token issuance. -/
theorem verifyJwtToken_checks_current_account_state
    (tok : String) (verify : String → JwtOutcome) (db : Db) (now : Nat) (uid : String)
    (hv : verify tok = .ok uid) :
    ((∃ p, verifyJwtToken (some tok) true verify db now = .allow p) ↔
      (∃ u, db.users.find? (fun v => v.id == uid) = some u ∧ u.isActive = true ∧
        u.isLocked now = false)) ∧
    (db.users.find? (fun v => v.id == uid) = none →
      verifyJwtToken (some tok) true verify db now = .reject inactiveUserRejection) ∧
    (∀ u, db.users.find? (fun v => v.id == uid) = some u → u.isActive = false →
      verifyJwtToken (some tok) true verify db now = .reject inactiveUserRejection) ∧
    (∀ u, db.users.find? (fun v => v.id == uid) = some u → u.isActive = true →
      u.isLocked now = true →
      verifyJwtToken (some tok) true verify db now =
        .reject (lockedUserRejection u.lockedUntil)) ∧
    inactiveUserRejection.status = 403 ∧ inactiveUserRejection.code = "INACTIVE_USER" ∧
    (∀ lu, (lockedUserRejection lu).status = 423 ∧
      (lockedUserRejection lu).code = "ACCOUNT_LOCKED") := by
  refine ⟨?_, ?_, ?_, ?_, rfl, rfl, fun lu => ⟨rfl, rfl⟩⟩
  · cases hfind : db.users.find? (fun v => v.id == uid) with
    | none => simp [verifyJwtToken, hv, hfind]
    | some u =>
      cases hact : u.isActive with
      | false => simp [verifyJwtToken, hv, hfind, hact]
      | true =>
        cases hl : u.isLocked now with
        | false => simp [verifyJwtToken, hv, hfind, hact, hl]
        | true => simp [verifyJwtToken, hv, hfind, hact, hl]
  · intro hfind
    simp [verifyJwtToken, hv, hfind]
  · intro u hfind hact
    simp [verifyJwtToken, hv, hfind, hact]
  · intro u hfind hact hl
    simp [verifyJwtToken, hv, hfind, hact, hl]

/-- C4 witness: the account-state conjunction instantiated on `exDb1` with a
token decoding to "u1". -/
theorem verifyJwtToken_checks_current_account_state_witness :
    ((∃ p, verifyJwtToken (some "tok") true (fun _ => .ok "u1") exDb1 0 = .allow p) ↔
      (∃ u, exDb1.users.find? (fun v => v.id == "u1") = some u ∧ u.isActive = true ∧
        u.isLocked 0 = false)) ∧
    (exDb1.users.find? (fun v => v.id == "u1") = none →
      verifyJwtToken (some "tok") true (fun _ => .ok "u1") exDb1 0 =
        .reject inactiveUserRejection) ∧
    (∀ u, exDb1.users.find? (fun v => v.id == "u1") = some u → u.isActive = false →
      verifyJwtToken (some "tok") true (fun _ => .ok "u1") exDb1 0 =
        .reject inactiveUserRejection) ∧
    (∀ u, exDb1.users.find? (fun v => v.id == "u1") = some u → u.isActive = true →
      u.isLocked 0 = true →
      verifyJwtToken (some "tok") true (fun _ => .ok "u1") exDb1 0 =
        .reject (lockedUserRejection u.lockedUntil)) ∧
    inactiveUserRejection.status = 403 ∧ inactiveUserRejection.code = "INACTIVE_USER" ∧
    (∀ lu, (lockedUserRejection lu).status = 423 ∧
      (lockedUserRejection lu).code = "ACCOUNT_LOCKED") :=
  verifyJwtToken_checks_current_account_state "tok" (fun _ => .ok "u1") exDb1 0 "u1" rfl

/-- C5 counterexample: at time 100 the only admin assignment of `exAdminDb`
is expired (expiresAt 50) yet still flagged active; the enhanced middleware
loads the role anyway and `requireAdmin` allows the request, so the claim
that an expired-only admin assignment is denied is false on the code. -/
theorem requireAdmin_expired_assignment_allowed_cex :
    exExpiredAssignment.expiresAt = some 50 ∧ (50 : Nat) < 100 ∧
    verifyJwtToken (some "tok") true (fun _ => .ok "u1") exAdminDb 100 =
      .allow exAdminPrincipal ∧
    exAdminPrincipal.roles = ["admin"] ∧
    requireAdmin (some exAdminPrincipal) = .allowed := by decide

/-- C5 (amended): `requireAdmin` allows exactly the authenticated principals
whose loaded role-name list contains "admin" or "super_admin", and denies all
others with 403 reporting the required and current role lists; the role
loading filters only on the active flags of the assignment and the role, and
is invariant under any change of the assignment expiry, so an expired
assignment is not excluded. -/
theorem requireAdmin_allows_iff_loaded_role_names (p : Principal) :
    (requireAdmin (some p) = .allowed ↔
      (p.roles.contains "admin" = true ∨ p.roles.contains "super_admin" = true)) ∧
    (p.roles.contains "admin" = false → p.roles.contains "super_admin" = false →
      requireAdmin (some p) =
        .forbidden 403 "INSUFFICIENT_PERMISSIONS" ["admin", "super_admin"] p.roles) ∧
    (∀ (db : Db) (uid : String) (f : UserRoleRec → Option Nat),
      loadedRoleNames
        { db with userRoles := db.userRoles.map (fun ur => { ur with expiresAt := f ur }) }
        uid =
      loadedRoleNames db uid) := by
  refine ⟨?_, ?_, ?_⟩
  · cases ha : p.roles.contains "admin" <;>
      cases hs : p.roles.contains "super_admin" <;>
      simp [requireAdmin, requireRole, ha, hs] <;> simp_all
  · intro ha hs
    simp [requireAdmin, requireRole, ha, hs]
    simp_all
  · intro db uid f
    simp only [loadedRoleNames]
    rw [List.filter_map, List.filterMap_map]
    rfl

/-- C6: a non-admin principal updating their own record with any of the
restricted fields (isActive, exercise_id, failedLoginAttempts, lockedUntil)
in the body is rejected with the 403 RESTRICTED_SELF_MODIFICATION response
listing the offending fields; the same body from a principal whose roles
include admin or super_admin, or from a non-admin targeting a different user
id, passes the check. -/
theorem preventSelfEscalation_restricted_fields
    (p : Principal) (targetId : String) (bodyFields : List String) :
    (p.userId = targetId → p.roles.contains "admin" = false →
      p.roles.contains "super_admin" = false →
      restrictedFields.any (fun f => bodyFields.contains f) = true →
      preventSelfPrivilegeEscalation (some p) targetId bodyFields =
        .forbidden 403 "RESTRICTED_SELF_MODIFICATION" restrictedFields
          (restrictedFields.filter (fun f => bodyFields.contains f))) ∧
    ((p.roles.contains "admin" = true ∨ p.roles.contains "super_admin" = true) →
      preventSelfPrivilegeEscalation (some p) targetId bodyFields = .allowed) ∧
    (p.userId ≠ targetId →
      preventSelfPrivilegeEscalation (some p) targetId bodyFields = .allowed) := by
  refine ⟨?_, ?_, ?_⟩
  · intro heq ha hs hr
    simp at ha hs hr
    simp [preventSelfPrivilegeEscalation, heq, ha, hs, hr]
  · rintro (ha | hs)
    · simp at ha
      simp [preventSelfPrivilegeEscalation]
      intro _ h2 _
      exact absurd ha h2
    · simp at hs
      simp [preventSelfPrivilegeEscalation]
      intro _ _ h3
      exact absurd hs h3
  · intro hne
    simp [preventSelfPrivilegeEscalation, hne]

/-- C7 counterexample: in the enhanced middleware an invalid-signature token
is rejected with machine code INVALID_TOKEN, not FORBIDDEN as the claim
states; and the simple variant, which does use code FORBIDDEN, returns it
for the expired case too, so it does not carry TOKEN_EXPIRED. -/
theorem invalid_token_code_is_not_forbidden_cex :
    verifyJwtToken (some "t") true (fun _ => JwtOutcome.invalid)
      { users := [], roles := [], userRoles := [] } 0 = .reject invalidTokenRejection ∧
    invalidTokenRejection.code = "INVALID_TOKEN" ∧
    invalidTokenRejection.code ≠ "FORBIDDEN" ∧
    verifyJwtTokenSimple (some "t") true (fun _ => JwtOutcome.expired) =
      .reject simpleForbiddenRejection ∧
    simpleForbiddenRejection.code ≠ "TOKEN_EXPIRED" := by decide

/-- C7 (amended): the enhanced middleware distinguishes the two error kinds,
both as 403 — TOKEN_EXPIRED for an expired token, INVALID_TOKEN (error
category "Forbidden") for a malformed or invalid-signature token — while the
simple variant answers 403 FORBIDDEN for both without distinguishing. -/
theorem token_error_classification
    (tok : String) (verify : String → JwtOutcome) (db : Db) (now : Nat) :
    (verify tok = .expired →
      verifyJwtToken (some tok) true verify db now = .reject expiredTokenRejection) ∧
    (verify tok = .invalid →
      verifyJwtToken (some tok) true verify db now = .reject invalidTokenRejection) ∧
    expiredTokenRejection.status = 403 ∧ expiredTokenRejection.code = "TOKEN_EXPIRED" ∧
    invalidTokenRejection.status = 403 ∧ invalidTokenRejection.code = "INVALID_TOKEN" ∧
    (verify tok = .expired →
      verifyJwtTokenSimple (some tok) true verify = .reject simpleForbiddenRejection) ∧
    (verify tok = .invalid →
      verifyJwtTokenSimple (some tok) true verify = .reject simpleForbiddenRejection) ∧
    simpleForbiddenRejection.status = 403 ∧
    simpleForbiddenRejection.code = "FORBIDDEN" := by
  refine ⟨?_, ?_, rfl, rfl, rfl, rfl, ?_, ?_, rfl, rfl⟩ <;>
    intro hv <;> simp [verifyJwtToken, verifyJwtTokenSimple, hv]

/-- C8 counterexample: on a store where the (u1, r1) assignment exists but is
revoked, the service-level assignRole that the HTTP routes call fails with
the already-assigned error and leaves the store unchanged, instead of
reactivating the pair. -/
theorem service_assignRole_revoked_pair_fails_cex :
    exRevokedAssignment.isActive = false ∧
    (UserRoleService.assignRole exRevokedDb "u1" "r1" none none 100).1 =
      .failure "Ce rôle est déjà assigné à cet utilisateur" ∧
    (UserRoleService.assignRole exRevokedDb "u1" "r1" none none 100).2 =
      exRevokedDb := by decide

/-- C8 (amended): the model-level `UserRole.assignRole` does reactivate a
revoked pair in place — the row becomes active with a fresh assigned-at and
the table keeps its length, so no duplicate is created — but on the same
store the service-level `UserRoleService.assignRole` used by the HTTP routes
fails with the already-assigned error. -/
theorem model_assignRole_reactivates_but_service_fails
    (db : Db) (userId roleId : String) (assignedBy : Option String)
    (expiresAt : Option Nat) (notes : Option String) (now : Nat) (rec0 : UserRoleRec)
    (hu : (db.users.find? (fun u => u.id == userId && u.isActive)).isSome = true)
    (hr : (db.roles.find? (fun r => r.id == roleId && r.isActive)).isSome = true)
    (he : db.userRoles.find? (fun ur => ur.user_id == userId && ur.role_id == roleId) =
      some rec0)
    (hi : rec0.isActive = false) :
    UserRole.assignRole db userId roleId assignedBy expiresAt notes now =
      (.reactivated (reactivatedRow rec0 assignedBy expiresAt notes now),
        { db with userRoles := db.userRoles.map (fun ur =>
            if ur.user_id == userId && ur.role_id == roleId then
              reactivatedRow rec0 assignedBy expiresAt notes now
            else ur) }) ∧
    (reactivatedRow rec0 assignedBy expiresAt notes now).isActive = true ∧
    (reactivatedRow rec0 assignedBy expiresAt notes now).assigned_at = now ∧
    (db.userRoles.map (fun ur =>
        if ur.user_id == userId && ur.role_id == roleId then
          reactivatedRow rec0 assignedBy expiresAt notes now
        else ur)).length = db.userRoles.length ∧
    (UserRoleService.assignRole db userId roleId expiresAt notes now).1 =
      .failure "Ce rôle est déjà assigné à cet utilisateur" := by
  obtain ⟨u, hu'⟩ := Option.isSome_iff_exists.mp hu
  obtain ⟨r, hr'⟩ := Option.isSome_iff_exists.mp hr
  refine ⟨?_, rfl, rfl, by simp, ?_⟩
  · simp [UserRole.assignRole, reactivatedRow, hu', hr', he, hi]
  · simp [UserRoleService.assignRole, he]

/-- C8 witness: the amended statement instantiated on `exRevokedDb` at time
100. -/
theorem model_assignRole_reactivates_but_service_fails_witness :
    UserRole.assignRole exRevokedDb "u1" "r1" none none none 100 =
      (.reactivated (reactivatedRow exRevokedAssignment none none none 100),
        { exRevokedDb with userRoles := exRevokedDb.userRoles.map (fun ur =>
            if ur.user_id == "u1" && ur.role_id == "r1" then
              reactivatedRow exRevokedAssignment none none none 100
            else ur) }) ∧
    (reactivatedRow exRevokedAssignment none none none 100).isActive = true ∧
    (reactivatedRow exRevokedAssignment none none none 100).assigned_at = 100 ∧
    (exRevokedDb.userRoles.map (fun ur =>
        if ur.user_id == "u1" && ur.role_id == "r1" then
          reactivatedRow exRevokedAssignment none none none 100
        else ur)).length = exRevokedDb.userRoles.length ∧
    (UserRoleService.assignRole exRevokedDb "u1" "r1" none none 100).1 =
      .failure "Ce rôle est déjà assigné à cet utilisateur" :=
  model_assignRole_reactivates_but_service_fails exRevokedDb "u1" "r1" none none none
    100 exRevokedAssignment (by decide) (by decide) (by decide) (by decide)

/-- C9 counterexample: a login on the inactive account `exCarol` — even with
the matching password — is answered by the distinct 401 body "Account is
inactive", while a login with an unknown email gets the 401 body "Invalid
email or password", so a rejected login against an existing account outside
the locked case is distinguishable from the unknown-email rejection. -/
theorem login_inactive_body_distinguishable_cex :
    exCarol.isActive = false ∧
    (login exDb9 true "carol@x.com" "hashC" exCmp true 0).1 = .err inactiveAccount ∧
    (login exDb9 true "dave@x.com" "hashC" exCmp true 0).1 = .err invalidCredentials ∧
    inactiveAccount ≠ invalidCredentials ∧
    inactiveAccount.status = 401 ∧ invalidCredentials.status = 401 := by decide

/-- C9 (amended): the unknown-email rejection and the wrong-password
rejection on an existing active unlocked account are identical — the same
401 status and the same body — so these two cases do not reveal whether the
email exists; the non-disclosure does not extend to the inactive-account
rejection, whose body differs. -/
theorem login_unknown_email_matches_wrong_password
    (db : Db) (e1 e2 pw1 pw2 : String) (compare : String → String → Bool)
    (jwtConfigured : Bool) (now : Nat) (u : User)
    (h1 : User.findByEmail db e1 = none)
    (h2 : User.findByEmail db e2 = some u)
    (hnl : u.isLocked now = false)
    (hact : u.isActive = true)
    (hpw : compare pw2 u.password = false) :
    (login db true e1 pw1 compare jwtConfigured now).1 = .err invalidCredentials ∧
    (login db true e2 pw2 compare jwtConfigured now).1 = .err invalidCredentials ∧
    (login db true e1 pw1 compare jwtConfigured now).1 =
      (login db true e2 pw2 compare jwtConfigured now).1 := by
  refine ⟨?_, ?_, ?_⟩ <;> simp [login, h1, h2, hnl, hact, hpw]

/-- C9 witness: the unknown email "dave@x.com" and a wrong password on
`exAlice` produce the same rejection. -/
theorem login_unknown_email_matches_wrong_password_witness :
    (login exDb1 true "dave@x.com" "wrongpw" exCmp true 1000).1 =
      .err invalidCredentials ∧
    (login exDb1 true "alice@x.com" "wrongpw" exCmp true 1000).1 =
      .err invalidCredentials ∧
    (login exDb1 true "dave@x.com" "wrongpw" exCmp true 1000).1 =
      (login exDb1 true "alice@x.com" "wrongpw" exCmp true 1000).1 :=
  login_unknown_email_matches_wrong_password exDb1 "dave@x.com" "alice@x.com"
    "wrongpw" "wrongpw" exCmp true 1000 exAlice (by decide) (by decide) (by decide)
    (by decide) (by decide)

/-- C10: once the lock has expired (lock-until in the past) the counter still
holds its accumulated value of at least 5, so a single further failed
password attempt is rejected 401 and immediately sets a fresh lock-until 30
minutes after the current time; the increment never brings the counter back
under the threshold, and only the success-path reset sets it to 0. -/
theorem login_relock_after_lock_expiry
    (db : Db) (email password : String) (compare : String → String → Bool)
    (jwtConfigured : Bool) (now t : Nat) (u : User)
    (hfind : User.findByEmail db email = some u)
    (hexp : u.lockedUntil = some t)
    (hpast : t ≤ now)
    (hact : u.isActive = true)
    (hcnt : 5 ≤ u.failedLoginAttempts)
    (hpw : compare password u.password = false) :
    login db true email password compare jwtConfigured now =
      (.err invalidCredentials, saveUser db (u.incrementFailedAttempts now)) ∧
    (u.incrementFailedAttempts now).lockedUntil = some (now + 30 * 60 * 1000) ∧
    (u.incrementFailedAttempts now).failedLoginAttempts = u.failedLoginAttempts + 1 ∧
    (∀ (v : User) (m : Nat), 5 ≤ v.failedLoginAttempts →
      5 ≤ (v.incrementFailedAttempts m).failedLoginAttempts) ∧
    (∀ (v : User) (m : Nat), (v.resetFailedAttempts m).failedLoginAttempts = 0) := by
  have hnl : u.isLocked now = false := by
    simp [User.isLocked, hexp]
    omega
  refine ⟨?_, ?_, ?_, ?_, fun v m => rfl⟩
  · simp [login, hfind, hnl, hact, hpw]
  · have h5 : 5 ≤ u.failedLoginAttempts + 1 := by omega
    simp [User.incrementFailedAttempts, h5]
  · simp [User.incrementFailedAttempts]
    split <;> rfl
  · intro v m hv
    simp [User.incrementFailedAttempts]
    split <;> simp <;> omega

/-- C10 witness: on `exEve`, locked until 500 with counter 5, a failed
attempt at time 1000 re-locks until 1000 + 30 minutes. -/
theorem login_relock_after_lock_expiry_witness :
    login exDb10 true "eve@x.com" "wrongpw" exCmp true 1000 =
      (.err invalidCredentials, saveUser exDb10 (exEve.incrementFailedAttempts 1000)) ∧
    (exEve.incrementFailedAttempts 1000).lockedUntil = some (1000 + 30 * 60 * 1000) ∧
    (exEve.incrementFailedAttempts 1000).failedLoginAttempts =
      exEve.failedLoginAttempts + 1 ∧
    (∀ (v : User) (m : Nat), 5 ≤ v.failedLoginAttempts →
      5 ≤ (v.incrementFailedAttempts m).failedLoginAttempts) ∧
    (∀ (v : User) (m : Nat), (v.resetFailedAttempts m).failedLoginAttempts = 0) :=
  login_relock_after_lock_expiry exDb10 "eve@x.com" "wrongpw" exCmp true 1000 500 exEve
    (by decide) (by decide) (by decide) (by decide) (by decide) (by decide)
